import Mathlib

/-!
Shallow embedding of `src/mesh_system.rs` of `bevy_text_mesh`:
the Synchronizer system `text_mesh`, the Font-Ready Watcher system
`font_loaded`, the per-object `TextMeshState`, and the helper `apply_mesh`.

Engine-side values that the mesh system only moves around and never
computes with (float coordinates, transforms, visibility flags, the ttf
font payload and the mesh cache payload) are modelled by opaque scalar
stand-ins (`Nat`/`Int`): the system copies and compares them, nothing more.
Asset stores (`Assets<T>`) are modelled as association lists with a fresh-id
counter; handles are ids.  The external generator `generate_text_mesh`
(from `mesh_data_generator.rs`, outside this embedding's scope) is a
parameter `gen` of the Synchronizer: it consumes the text declaration, the
mutable ttf font and the mutable shared cache and returns the produced
`MeshData` together with the updated font payload and cache, exactly the
signature the call site uses.  The `unwrap()` on line 65 of the source is
modelled by `Option`: a `none` result of a pass marks the panic.
-/

namespace BevyTextMesh

/-- Handle<T> identity: an asset id. -/
abbrev HandleId := Nat

/-- Opaque stand-in for a color value (the system only copies it). -/
abbrev Color := Nat

/-- Opaque stand-in for `Transform` (copied verbatim by the system). -/
abbrev Transform := Nat

/-- Opaque stand-in for `GlobalTransform` (copied verbatim). -/
abbrev GlobalTransform := Nat

/-- Opaque stand-in for `Visibility` (copied verbatim). -/
abbrev Visibility := Nat

/-- Opaque stand-in for the ttf font payload inside `TextMeshFont`. -/
abbrev TtfFont := Nat

/-- Opaque stand-in for the shared `MeshCache` resource payload. -/
abbrev MeshCache := Nat

/-- Output of the external generator: the four geometry buffers.
Scalar coordinates are opaque to the mesh system, modelled as `Int`;
indices are u32 values, modelled as `Nat`. -/
structure MeshData where
  vertices : List (Int × Int × Int)
  normals : List (Int × Int × Int)
  uvs : List (Int × Int)
  indices : List Nat
  deriving DecidableEq, Repr

/-- Model of `bevy::render::render_resource::PrimitiveTopology`. -/
inductive PrimitiveTopology where
  | PointList
  | LineList
  | LineStrip
  | TriangleList
  | TriangleStrip
  deriving DecidableEq, Repr

/-- Model of `bevy::render::mesh::Indices`: an index buffer tagged with its width. -/
inductive Indices where
  | U16 (l : List Nat)
  | U32 (l : List Nat)
  deriving DecidableEq, Repr

/-- The renderable mesh container, restricted to the pieces the mesh
system reads or writes: topology, the three vertex attributes it inserts,
and the index buffer. -/
structure Mesh where
  topology : PrimitiveTopology
  attr_position : Option (List (Int × Int × Int))
  attr_normal : Option (List (Int × Int × Int))
  attr_uv0 : Option (List (Int × Int))
  indices : Option Indices
  deriving DecidableEq, Repr

/-- Constructor `Mesh::new(topology)`: an empty mesh with the given topology. -/
def Mesh.new (topology : PrimitiveTopology) : Mesh :=
  { topology := topology
    attr_position := none
    attr_normal := none
    attr_uv0 := none
    indices := none }

/-- Model of the `AlphaMode` of `StandardMaterial`. -/
inductive AlphaMode where
  | Opaque
  | Mask (cutoff : Nat)
  | Blend
  deriving DecidableEq, Repr

/-- Model of `StandardMaterial`, restricted to the fields the mesh system sets. -/
structure StandardMaterial where
  base_color : Color
  unlit : Bool
  alpha_mode : AlphaMode
  deriving DecidableEq, Repr

/-- Value of `StandardMaterial::default()` for the fields modelled here. -/
def StandardMaterial.default : StandardMaterial :=
  { base_color := 0
    unlit := false
    alpha_mode := AlphaMode.Opaque }

/-- Model of `TextMeshFont` from `font_loader.rs`: wraps the ttf font payload the
generator mutates through `&mut font.ttf_font`. -/
structure TextMeshFont where
  ttf_font : TtfFont
  deriving DecidableEq, Repr

/-- The style part of the text declaration, restricted to the fields the
mesh system consults directly: the font handle and the base color.  The
remaining generator parameters travel opaquely inside `TextMesh`. -/
structure TextMeshStyle where
  font : HandleId
  color : Color
  deriving DecidableEq, Repr

/-- The `TextMesh` component: the user-authored text declaration. -/
structure TextMesh where
  text : String
  style : TextMeshStyle
  deriving DecidableEq, Repr

/-- The per-object `TextMeshState` component (source lines 124-132). -/
structure TextMeshState where
  font_loaded : Option Bool
  warning_trigger_count : Nat
  warning_shown : Bool
  deriving DecidableEq, Repr

/-- Value of `impl Default for TextMeshState` (source lines 134-142). -/
def TextMeshState.default : TextMeshState :=
  { font_loaded := none
    warning_trigger_count := 0
    warning_shown := false }

/-- An `Assets<T>` store: an association list from handle ids to assets,
plus the next fresh id. -/
structure Assets (α : Type) where
  store : List (HandleId × α)
  next_id : HandleId
  deriving DecidableEq, Repr

namespace Assets

/-- Lookup `Assets::get` / `Assets::get_mut`. -/
def get? {α : Type} (a : Assets α) (h : HandleId) : Option α :=
  (a.store.find? (fun p => p.1 = h)).map (fun p => p.2)

/-- Operation `Assets::add`: stores the asset under a fresh handle and returns the
updated store together with the handle. -/
def add {α : Type} (a : Assets α) (x : α) : Assets α × HandleId :=
  ({ store := (a.next_id, x) :: a.store, next_id := a.next_id + 1 }, a.next_id)

/-- Write-back through a `get_mut` borrow: replace the asset stored under
an existing handle. -/
def set {α : Type} (a : Assets α) (h : HandleId) (x : α) : Assets α :=
  { store := a.store.map (fun p => if p.1 = h then (h, x) else p)
    next_id := a.next_id }

end Assets

/-- One queried text object: the components the Synchronizer query
requests for an entity (source lines 14-26), with its own `TextMeshState`. -/
structure TextObject where
  transform : Transform
  global_transform : GlobalTransform
  material : Option HandleId
  text_mesh : TextMesh
  mesh : Option HandleId
  visibility : Visibility
  state : TextMeshState
  deriving DecidableEq, Repr

/-- The resources the Synchronizer touches: the three asset stores and the
shared mesh cache. -/
structure World where
  materials : Assets StandardMaterial
  meshes : Assets Mesh
  fonts : Assets TextMeshFont
  cache : MeshCache
  deriving DecidableEq, Repr

/-- Signature of the external `generate_text_mesh` (from
`mesh_data_generator.rs`): it reads the text declaration, mutates the ttf
font payload and the shared cache, and returns the generated `MeshData`. -/
abbrev GenFn := TextMesh → TtfFont → MeshCache → MeshData × TtfFont × MeshCache

/-- Helper `apply_mesh` (source lines 144-149): insert the three vertex
attributes and set the u32 index buffer. -/
def apply_mesh (mesh_data : MeshData) (mesh : Mesh) : Mesh :=
  { mesh with
      attr_position := some mesh_data.vertices
      attr_normal := some mesh_data.normals
      attr_uv0 := some mesh_data.uvs
      indices := some (Indices.U32 mesh_data.indices) }

/-- The `None` arm of the font lookup in `text_mesh` (source lines 48-58):
the warning-throttling update of `TextMeshState`.  Returns the updated
state and whether the diagnostic warning was emitted on this pass. -/
def skip_state (state : TextMeshState) : TextMeshState × Bool :=
  if !state.warning_shown then
    let state :=
      { state with warning_trigger_count := state.warning_trigger_count + 1 }
    if state.warning_trigger_count > 5 then
      ({ state with warning_shown := true }, true)
    else
      (state, false)
  else
    (state, false)

/-- The body of the Synchronizer loop for one queried object (source lines
43-92).  Returns the updated resources, the updated object and whether the
diagnostic warning was emitted; `none` marks the `unwrap()` panic on
source line 65 (mesh handle present but absent from the store). -/
def text_mesh_step (gen : GenFn) (w : World) (obj : TextObject) :
    Option (World × TextObject × Bool) :=
  match w.fonts.get? obj.text_mesh.style.font with
  | none =>
      let r := skip_state obj.state
      some (w, { obj with state := r.1 }, r.2)
  | some font =>
      let g := gen obj.text_mesh font.ttf_font w.cache
      let ttf2_mesh := g.1
      let fonts := w.fonts.set obj.text_mesh.style.font { font with ttf_font := g.2.1 }
      let cache := g.2.2
      match obj.mesh with
      | some mesh_handle =>
          match w.meshes.get? mesh_handle with
          | none => none
          | some mesh =>
              let mesh := apply_mesh ttf2_mesh mesh
              some
                ({ w with
                    meshes := w.meshes.set mesh_handle mesh
                    fonts := fonts
                    cache := cache },
                  obj, false)
      | none =>
          let mesh := Mesh.new PrimitiveTopology.TriangleList
          let mesh := apply_mesh ttf2_mesh mesh
          let ma := w.meshes.add mesh
          let mat :=
            match obj.material with
            | some m => (w.materials, m)
            | none =>
                w.materials.add
                  { StandardMaterial.default with
                      base_color := obj.text_mesh.style.color
                      unlit := true
                      alpha_mode := AlphaMode.Blend }
          some
            ({ w with
                materials := mat.1
                meshes := ma.1
                fonts := fonts
                cache := cache },
              { obj with
                  mesh := some ma.2
                  material := some mat.2
                  transform := obj.transform
                  global_transform := obj.global_transform
                  visibility := obj.visibility },
              false)

/-- The Synchronizer system `text_mesh` (source lines 9-93): one pass over
the queried objects, each tagged with its eligibility (`Changed<TextMesh>`
or `Changed<TextMeshState>`); ineligible objects are not visited.  Returns
the updated resources, the updated objects in order, and the number of
diagnostic warnings emitted; `none` marks a panic. -/
def text_mesh (gen : GenFn) (w : World) :
    List (Bool × TextObject) → Option (World × List TextObject × Nat)
  | [] => some (w, [], 0)
  | (changed, obj) :: rest =>
      if changed then
        (text_mesh_step gen w obj).bind fun r =>
          (text_mesh gen r.1 rest).map fun r2 =>
            (r2.1, r.2.1 :: r2.2.1, (if r.2.2 then 1 else 0) + r2.2.2)
      else
        (text_mesh gen w rest).map fun r2 => (r2.1, obj :: r2.2.1, r2.2.2)

/-- Model of `AssetEvent<TextMeshFont>`: the font lifecycle events. -/
inductive AssetEvent where
  | Created (handle : HandleId)
  | Modified (handle : HandleId)
  | Removed (handle : HandleId)
  deriving DecidableEq, Repr

/-- Processing of one font lifecycle event by the Font-Ready Watcher
(source lines 102-121). -/
def font_loaded_event (objs : List TextObject) (event : AssetEvent) :
    List TextObject :=
  match event with
  | AssetEvent.Created handle =>
      objs.map fun o =>
        if handle = o.text_mesh.style.font then
          { o with state := { o.state with font_loaded := some true } }
        else o
  | AssetEvent.Removed handle =>
      objs.map fun o =>
        if handle = o.text_mesh.style.font then
          { o with state := { o.state with font_loaded := some false } }
        else o
  | _ => objs

/-- The Font-Ready Watcher system `font_loaded` (source lines 95-122): one
pass over the pending font lifecycle events. -/
def font_loaded (objs : List TextObject) (events : List AssetEvent) :
    List TextObject :=
  events.foldl font_loaded_event objs

/-- Iterated single-object Synchronizer passes: the object is eligible on
every pass (its state write re-marks it changed).  Accumulates the number
of diagnostic warnings emitted over the run. -/
def passes (gen : GenFn) : Nat → World → TextObject →
    Option (World × TextObject × Nat)
  | 0, w, obj => some (w, obj, 0)
  | n + 1, w, obj =>
      (text_mesh_step gen w obj).bind fun r =>
        (passes gen n r.1 r.2.1).map fun r2 =>
          (r2.1, r2.2.1, (if r.2.2 then 1 else 0) + r2.2.2)

/-- Iterated warning-throttle updates: `n` unresolved skips starting from
a state, together with the number of warnings emitted. -/
def skips : Nat → TextMeshState → TextMeshState × Nat
  | 0, s => (s, 0)
  | n + 1, s =>
      let r := skip_state s
      let r2 := skips n r.1
      (r2.1, (if r.2 then 1 else 0) + r2.2)

/-! Concrete sample data used by counterexamples and witnesses. -/

/-- A concrete generator: returns fixed buffers, leaves font and cache
unchanged. -/
def gen0 : GenFn := fun _ f c =>
  ({ vertices := [(1, 2, 3)], normals := [(0, 0, 1)], uvs := [(0, 1)],
     indices := [0, 1, 2] }, f, c)

/-- A concrete text object: font handle 0, color 7, no mesh, no material,
default state. -/
def obj0 : TextObject :=
  { transform := 11
    global_transform := 12
    material := none
    text_mesh := { text := "Hello", style := { font := 0, color := 7 } }
    mesh := none
    visibility := 13
    state := TextMeshState.default }

/-- A concrete world with all asset stores empty (so font handle 0 does
not resolve). -/
def w0 : World :=
  { materials := { store := [], next_id := 0 }
    meshes := { store := [], next_id := 0 }
    fonts := { store := [], next_id := 0 }
    cache := 0 }

/-- A concrete world in which font handle 0 resolves. -/
def wFont : World :=
  { w0 with fonts := { store := [(0, { ttf_font := 5 })], next_id := 1 } }

/-- A concrete world in which font handle 0 resolves and mesh handle 0 is
stored. -/
def wFull : World :=
  { wFont with
      meshes := { store := [(0, Mesh.new PrimitiveTopology.TriangleList)], next_id := 1 } }

/-- A concrete text object that already has mesh handle 0 and material
handle 4 attached. -/
def objM : TextObject := { obj0 with mesh := some 0, material := some 4 }

/-! Helper lemmas on the warning-throttle state machine. -/

/-- Updating via `skip_state` never changes `font_loaded`. -/
theorem skip_state_font_loaded (s : TextMeshState) :
    (skip_state s).1.font_loaded = s.font_loaded := by
  unfold skip_state
  split
  · dsimp only
    split <;> rfl
  · rfl

/-- Closed form of `n` consecutive unresolved skips from any state
satisfying the throttle invariant: the counter saturates at 6, the latch
is set exactly when the saturating sum reaches 6, `font_loaded` is
untouched, and at most one warning is emitted in total. -/
theorem skips_closed (n : Nat) (s : TextMeshState)
    (hle : s.warning_trigger_count ≤ 6)
    (hiff : s.warning_shown = true ↔ s.warning_trigger_count = 6) :
    (skips n s).1.warning_trigger_count = min (s.warning_trigger_count + n) 6 ∧
    ((skips n s).1.warning_shown = true ↔ 6 ≤ s.warning_trigger_count + n) ∧
    (skips n s).1.font_loaded = s.font_loaded ∧
    (skips n s).2 =
      (if s.warning_shown = false ∧ 6 ≤ s.warning_trigger_count + n then 1 else 0) := by
  induction n generalizing s with
  | zero =>
      refine ⟨by simp [skips]; omega, by simp [skips]; rw [hiff]; omega, rfl, ?_⟩
      cases hs : s.warning_shown with
      | false =>
          have hne : s.warning_trigger_count ≠ 6 := by
            intro hc
            rw [hiff.mpr hc] at hs
            exact Bool.true_eq_false.mp hs
          have h6 : ¬ 6 ≤ s.warning_trigger_count := by omega
          simp [skips, hs, h6]
      | true => simp [skips, hs]
  | succ n ih =>
      cases hs : s.warning_shown with
      | true =>
          have h6 : s.warning_trigger_count = 6 := hiff.mp hs
          have hstep : skip_state s = (s, false) := by simp [skip_state, hs]
          have hrec := ih s hle hiff
          simp only [skips, hstep]
          refine ⟨?_, ?_, hrec.2.2.1, ?_⟩
          · rw [hrec.1]; omega
          · rw [hrec.2.1]; omega
          · rw [hrec.2.2.2]; simp [hs]
      | false =>
          have hne : s.warning_trigger_count ≠ 6 := by
            intro hc
            rw [hiff.mpr hc] at hs
            exact Bool.true_eq_false.mp hs
          have hle5 : s.warning_trigger_count ≤ 5 := by omega
          by_cases h5 : s.warning_trigger_count = 5
          · have hstep : skip_state s =
                ({ s with warning_trigger_count := 6, warning_shown := true }, true) := by
              simp [skip_state, hs, h5]
            have hrec := ih { s with warning_trigger_count := 6, warning_shown := true }
              (by simp) (by simp)
            simp only [skips, hstep]
            refine ⟨?_, ?_, hrec.2.2.1, ?_⟩
            · rw [hrec.1]; simp; omega
            · rw [hrec.2.1]; simp; omega
            · have hz : (skips n
                  { s with warning_trigger_count := 6, warning_shown := true }).2 = 0 := by
                rw [hrec.2.2.2]; simp
              have hc : 6 ≤ s.warning_trigger_count + (n + 1) := by omega
              rw [hz]
              simp [hs, hc]
          · have hlt : ¬ s.warning_trigger_count + 1 > 5 := by omega
            have hstep : skip_state s =
                ({ s with warning_trigger_count := s.warning_trigger_count + 1 }, false) := by
              simp [skip_state, hs, hlt]
            have hrec := ih { s with warning_trigger_count := s.warning_trigger_count + 1 }
              (by simp; omega) (by simp [hs]; omega)
            simp only [skips, hstep]
            refine ⟨?_, ?_, hrec.2.2.1, ?_⟩
            · rw [hrec.1]; simp; omega
            · rw [hrec.2.1]; simp; omega
            · have hz : (skips n
                  { s with warning_trigger_count := s.warning_trigger_count + 1 }).2 =
                  if 6 ≤ s.warning_trigger_count + 1 + n then 1 else 0 := by
                rw [hrec.2.2.2]; simp [hs]
              rw [hz]
              have hiffn : (6 ≤ s.warning_trigger_count + 1 + n) ↔
                  (6 ≤ s.warning_trigger_count + (n + 1)) := by omega
              simp [hs, hiffn]

/-- When the object's font does not resolve, an `n`-pass run is exactly
`n` iterated throttle updates: the world is untouched and the object
changes only in its state. -/
theorem passes_unresolved (gen : GenFn) (n : Nat) (w : World) (obj : TextObject)
    (hfont : w.fonts.get? obj.text_mesh.style.font = none) :
    passes gen n w obj =
      some (w, { obj with state := (skips n obj.state).1 }, (skips n obj.state).2) := by
  induction n generalizing obj with
  | zero => rfl
  | succ n ih =>
      have hstep : text_mesh_step gen w obj =
          some (w, { obj with state := (skip_state obj.state).1 },
            (skip_state obj.state).2) := by
        simp [text_mesh_step, hfont]
      have ih2 := ih { obj with state := (skip_state obj.state).1 } (by simpa using hfont)
      simp [passes, hstep, ih2, skips]

/-! Lemmas about the asset-store embedding. -/

/-- Looking up a handle after writing back through it yields the written
asset, provided the handle was present. -/
theorem Assets.get?_set_self {α : Type} (a : Assets α) (h : HandleId) (x m : α)
    (hm : a.get? h = some m) : (a.set h x).get? h = some x := by
  obtain ⟨l, nid⟩ := a
  simp only [Assets.get?, Assets.set] at *
  induction l with
  | nil => simp at hm
  | cons p l ih =>
      by_cases hp : p.1 = h
      · rw [List.map_cons, if_pos hp, List.find?_cons]
        simp
      · rw [List.find?_cons] at hm
        rw [List.map_cons, if_neg hp, List.find?_cons]
        simp only [hp, decide_False] at hm ⊢
        exact ih hm

/-- Writing back via `set` does not change the fresh-id counter. -/
theorem Assets.set_next_id {α : Type} (a : Assets α) (h : HandleId) (x : α) :
    (a.set h x).next_id = a.next_id := rfl

/-- Looking up the handle returned by `add` yields the added asset. -/
theorem Assets.get?_add_self {α : Type} (a : Assets α) (x : α) :
    (a.add x).1.get? (a.add x).2 = some x := by
  simp [Assets.get?, Assets.add, List.find?_cons_of_pos]

/-- Writing back via `set` preserves presence of every handle. -/
theorem Assets.get?_set_isSome {α : Type} (a : Assets α) (h k : HandleId) (x : α)
    (hk : (a.get? k).isSome) : ((a.set h x).get? k).isSome := by
  obtain ⟨l, nid⟩ := a
  simp only [Assets.get?, Assets.set] at *
  induction l with
  | nil => simp at hk
  | cons p l ih =>
      by_cases hp : p.1 = k
      · by_cases hph : p.1 = h
        · have hhk : h = k := hph ▸ hp
          rw [List.map_cons, if_pos hph, List.find?_cons]
          simp [hhk]
        · rw [List.map_cons, if_neg hph, List.find?_cons]
          simp [hp]
      · rw [List.find?_cons] at hk
        simp only [hp, decide_False] at hk
        by_cases hph : p.1 = h
        · have hhk : ¬ h = k := fun hc => hp (hph.trans hc)
          rw [List.map_cons, if_pos hph, List.find?_cons]
          simp only [hhk, decide_False]
          exact ih hk
        · rw [List.map_cons, if_neg hph, List.find?_cons]
          simp only [hp, decide_False]
          exact ih hk

/-- Adding via `add` preserves presence of every handle. -/
theorem Assets.get?_add_isSome {α : Type} (a : Assets α) (k : HandleId) (x : α)
    (hk : (a.get? k).isSome) : ((a.add x).1.get? k).isSome := by
  obtain ⟨l, nid⟩ := a
  simp only [Assets.get?, Assets.add] at *
  by_cases hp : nid = k
  · simp [hp]
  · simpa [hp] using hk

/-! Claim theorems. -/

/-- C1 (counterexample): the claim "warning_trigger_count equals the
number of eligible unresolved passes" fails on the code: after 7 eligible
unresolved passes on a fresh object the counter is 6, not 7, because the
increment is guarded by `!state.warning_shown` (source line 49). -/
theorem c1_count_equals_passes_false :
    (passes gen0 7 w0 obj0).map (fun r => r.2.1.state.warning_trigger_count) = some 6 ∧
    (6 : Nat) ≠ 7 :=
  ⟨rfl, by decide⟩

/-- C1 (amended): for an object whose font fails to resolve, each eligible
unresolved pass increments `warning_trigger_count` by one only while
`warning_shown` is still false, so after `n` such passes from the default
state the counter equals `min n 6` (it saturates at 6 once the warning has
been shown). -/
theorem c1_warning_count_saturates (gen : GenFn) (w : World) (obj : TextObject) (n : Nat)
    (hfont : w.fonts.get? obj.text_mesh.style.font = none)
    (hstate : obj.state = TextMeshState.default) :
    (passes gen n w obj).map (fun r => r.2.1.state.warning_trigger_count) =
      some (min n 6) := by
  rw [passes_unresolved gen n w obj hfont, hstate]
  have h := skips_closed n TextMeshState.default (by decide) (by decide)
  simp only [Option.map]
  rw [h.1]
  simp [TextMeshState.default]

/-- Witness for `c1_warning_count_saturates` at a concrete 9-pass run. -/
theorem c1_warning_count_saturates_witness :
    w0.fonts.get? obj0.text_mesh.style.font = none ∧
    obj0.state = TextMeshState.default ∧
    (passes gen0 9 w0 obj0).map (fun r => r.2.1.state.warning_trigger_count) =
      some (min 9 6) :=
  ⟨rfl, rfl, c1_warning_count_saturates gen0 w0 obj0 9 rfl rfl⟩

/-- C2 (confirmed): across `n` eligible unresolved passes from the default
state, the diagnostic warning is emitted exactly once when `n ≥ 6` and
never otherwise, and `warning_shown` ends true exactly when `n ≥ 6`: the
latch transitions false→true once, at the pass where the counter exceeds
5, and no warning is ever emitted afterwards. -/
theorem c2_warning_fires_exactly_once (gen : GenFn) (w : World) (obj : TextObject) (n : Nat)
    (hfont : w.fonts.get? obj.text_mesh.style.font = none)
    (hstate : obj.state = TextMeshState.default) :
    ∃ r, passes gen n w obj = some r ∧
      (r.2.1.state.warning_shown = true ↔ 6 ≤ n) ∧
      r.2.2 = (if 6 ≤ n then 1 else 0) := by
  refine ⟨_, passes_unresolved gen n w obj hfont, ?_, ?_⟩
  · rw [hstate]
    have h := skips_closed n TextMeshState.default (by decide) (by decide)
    rw [h.2.1]
    simp [TextMeshState.default]
  · rw [hstate]
    have h := skips_closed n TextMeshState.default (by decide) (by decide)
    rw [h.2.2.2]
    simp [TextMeshState.default]

/-- Witness for `c2_warning_fires_exactly_once` at a concrete 16-pass run
(6 passes reach the warning, 10 more stay silent). -/
theorem c2_warning_fires_exactly_once_witness :
    w0.fonts.get? obj0.text_mesh.style.font = none ∧
    obj0.state = TextMeshState.default ∧
    ∃ r, passes gen0 16 w0 obj0 = some r ∧
      (r.2.1.state.warning_shown = true ↔ 6 ≤ 16) ∧
      r.2.2 = (if 6 ≤ 16 then 1 else 0) :=
  ⟨rfl, rfl, c2_warning_fires_exactly_once gen0 w0 obj0 16 rfl rfl⟩

/-- C5 (confirmed): when the object's font does not resolve, the
Synchronizer step mutates no resource (materials, meshes, fonts and cache
are returned unchanged) and no renderable field of the object (text
declaration, mesh handle, material handle, transform, global transform,
visibility all unchanged); only the warning fields of its state may
change, `font_loaded` included among the preserved fields. -/
theorem c5_unresolved_skip_no_mutation (gen : GenFn) (w : World) (obj : TextObject)
    (hfont : w.fonts.get? obj.text_mesh.style.font = none) :
    ∃ r, text_mesh_step gen w obj = some r ∧
      r.1 = w ∧
      r.2.1.text_mesh = obj.text_mesh ∧
      r.2.1.mesh = obj.mesh ∧
      r.2.1.material = obj.material ∧
      r.2.1.transform = obj.transform ∧
      r.2.1.global_transform = obj.global_transform ∧
      r.2.1.visibility = obj.visibility ∧
      r.2.1.state.font_loaded = obj.state.font_loaded := by
  refine ⟨(w, { obj with state := (skip_state obj.state).1 }, (skip_state obj.state).2),
    ?_, rfl, rfl, rfl, rfl, rfl, rfl, rfl, skip_state_font_loaded obj.state⟩
  simp [text_mesh_step, hfont]

/-- Witness for `c5_unresolved_skip_no_mutation` at a concrete object. -/
theorem c5_unresolved_skip_no_mutation_witness :
    w0.fonts.get? obj0.text_mesh.style.font = none ∧
    ∃ r, text_mesh_step gen0 w0 obj0 = some r ∧
      r.1 = w0 ∧
      r.2.1.text_mesh = obj0.text_mesh ∧
      r.2.1.mesh = obj0.mesh ∧
      r.2.1.material = obj0.material ∧
      r.2.1.transform = obj0.transform ∧
      r.2.1.global_transform = obj0.global_transform ∧
      r.2.1.visibility = obj0.visibility ∧
      r.2.1.state.font_loaded = obj0.state.font_loaded :=
  ⟨rfl, c5_unresolved_skip_no_mutation gen0 w0 obj0 rfl⟩

/-- C4 (confirmed): for an object that already has a mesh handle, a
successful Synchronizer pass overwrites the stored mesh in place through
that handle (same handle, no new allocation: the fresh-id counter of the
mesh store is unchanged) with the generator's buffers applied, returns the
object itself unchanged (material handle, transform, global transform,
visibility untouched), and leaves the material store unchanged (the
style's color is not re-applied on update). -/
theorem c4_update_in_place (gen : GenFn) (w : World) (obj : TextObject)
    (font : TextMeshFont) (mesh_handle : HandleId) (m : Mesh)
    (hfont : w.fonts.get? obj.text_mesh.style.font = some font)
    (hmesh : obj.mesh = some mesh_handle)
    (hget : w.meshes.get? mesh_handle = some m) :
    ∃ r, text_mesh_step gen w obj = some r ∧
      r.2.1 = obj ∧
      r.1.materials = w.materials ∧
      r.1.meshes.get? mesh_handle =
        some (apply_mesh (gen obj.text_mesh font.ttf_font w.cache).1 m) ∧
      r.1.meshes.next_id = w.meshes.next_id := by
  refine ⟨({ w with
      meshes := w.meshes.set mesh_handle
        (apply_mesh (gen obj.text_mesh font.ttf_font w.cache).1 m)
      fonts := w.fonts.set obj.text_mesh.style.font
        { font with ttf_font := (gen obj.text_mesh font.ttf_font w.cache).2.1 }
      cache := (gen obj.text_mesh font.ttf_font w.cache).2.2 }, obj, false),
    ?_, rfl, rfl, Assets.get?_set_self w.meshes mesh_handle _ m hget, rfl⟩
  simp [text_mesh_step, hfont, hmesh, hget]

/-- Witness for `c4_update_in_place` at a concrete object with an existing
mesh and material handle. -/
theorem c4_update_in_place_witness :
    wFull.fonts.get? objM.text_mesh.style.font = some { ttf_font := 5 } ∧
    objM.mesh = some 0 ∧
    wFull.meshes.get? 0 = some (Mesh.new PrimitiveTopology.TriangleList) ∧
    ∃ r, text_mesh_step gen0 wFull objM = some r ∧
      r.2.1 = objM ∧
      r.1.materials = wFull.materials ∧
      r.1.meshes.get? 0 =
        some (apply_mesh (gen0 objM.text_mesh 5 wFull.cache).1
          (Mesh.new PrimitiveTopology.TriangleList)) ∧
      r.1.meshes.next_id = wFull.meshes.next_id :=
  ⟨rfl, rfl, rfl,
    c4_update_in_place gen0 wFull objM { ttf_font := 5 } 0
      (Mesh.new PrimitiveTopology.TriangleList) rfl rfl rfl⟩

/-- C3 (confirmed): for an object whose font resolves (and whose mesh
handle, when present, is backed by the store), one Synchronizer step
leaves the object with a mesh handle whose stored mesh carries exactly the
generator's output for this pass: position, normal and UV attribute
buffers and the unsigned 32-bit index buffer of the generated `MeshData`. -/
theorem c3_success_mesh_equals_generator_output (gen : GenFn) (w : World)
    (obj : TextObject) (font : TextMeshFont)
    (hfont : w.fonts.get? obj.text_mesh.style.font = some font)
    (hvalid : ∀ mh, obj.mesh = some mh → ∃ m0, w.meshes.get? mh = some m0) :
    ∃ r mh m, text_mesh_step gen w obj = some r ∧
      r.2.1.mesh = some mh ∧
      r.1.meshes.get? mh = some m ∧
      m.attr_position = some (gen obj.text_mesh font.ttf_font w.cache).1.vertices ∧
      m.attr_normal = some (gen obj.text_mesh font.ttf_font w.cache).1.normals ∧
      m.attr_uv0 = some (gen obj.text_mesh font.ttf_font w.cache).1.uvs ∧
      m.indices = some (Indices.U32 (gen obj.text_mesh font.ttf_font w.cache).1.indices) := by
  cases hm : obj.mesh with
  | some mh =>
      obtain ⟨m0, hget⟩ := hvalid mh hm
      refine ⟨({ w with
          meshes := w.meshes.set mh
            (apply_mesh (gen obj.text_mesh font.ttf_font w.cache).1 m0)
          fonts := w.fonts.set obj.text_mesh.style.font
            { font with ttf_font := (gen obj.text_mesh font.ttf_font w.cache).2.1 }
          cache := (gen obj.text_mesh font.ttf_font w.cache).2.2 }, obj, false),
        mh, apply_mesh (gen obj.text_mesh font.ttf_font w.cache).1 m0,
        ?_, hm, Assets.get?_set_self w.meshes mh _ m0 hget, rfl, rfl, rfl, rfl⟩
      simp [text_mesh_step, hfont, hm, hget]
  | none =>
      cases hmat : obj.material with
      | some mhandle =>
          refine ⟨({ w with
              materials := w.materials
              meshes := (w.meshes.add
                (apply_mesh (gen obj.text_mesh font.ttf_font w.cache).1
                  (Mesh.new PrimitiveTopology.TriangleList))).1
              fonts := w.fonts.set obj.text_mesh.style.font
                { font with ttf_font := (gen obj.text_mesh font.ttf_font w.cache).2.1 }
              cache := (gen obj.text_mesh font.ttf_font w.cache).2.2 },
            { obj with
                mesh := some (w.meshes.add
                  (apply_mesh (gen obj.text_mesh font.ttf_font w.cache).1
                    (Mesh.new PrimitiveTopology.TriangleList))).2
                material := some mhandle },
            false),
            (w.meshes.add
              (apply_mesh (gen obj.text_mesh font.ttf_font w.cache).1
                (Mesh.new PrimitiveTopology.TriangleList))).2,
            apply_mesh (gen obj.text_mesh font.ttf_font w.cache).1
              (Mesh.new PrimitiveTopology.TriangleList),
            ?_, rfl, ?_, rfl, rfl, rfl, rfl⟩
          · simp [text_mesh_step, hfont, hm, hmat]
          · exact Assets.get?_add_self w.meshes _
      | none =>
          refine ⟨({ w with
              materials := (w.materials.add
                { base_color := obj.text_mesh.style.color, unlit := true,
                  alpha_mode := AlphaMode.Blend }).1
              meshes := (w.meshes.add
                (apply_mesh (gen obj.text_mesh font.ttf_font w.cache).1
                  (Mesh.new PrimitiveTopology.TriangleList))).1
              fonts := w.fonts.set obj.text_mesh.style.font
                { font with ttf_font := (gen obj.text_mesh font.ttf_font w.cache).2.1 }
              cache := (gen obj.text_mesh font.ttf_font w.cache).2.2 },
            { obj with
                mesh := some (w.meshes.add
                  (apply_mesh (gen obj.text_mesh font.ttf_font w.cache).1
                    (Mesh.new PrimitiveTopology.TriangleList))).2
                material := some (w.materials.add
                  { base_color := obj.text_mesh.style.color, unlit := true,
                    alpha_mode := AlphaMode.Blend }).2 },
            false),
            (w.meshes.add
              (apply_mesh (gen obj.text_mesh font.ttf_font w.cache).1
                (Mesh.new PrimitiveTopology.TriangleList))).2,
            apply_mesh (gen obj.text_mesh font.ttf_font w.cache).1
              (Mesh.new PrimitiveTopology.TriangleList),
            ?_, rfl, ?_, rfl, rfl, rfl, rfl⟩
          · simp [text_mesh_step, hfont, hm, hmat]
          · exact Assets.get?_add_self w.meshes _

/-- Witness for `c3_success_mesh_equals_generator_output` at a concrete
object with no mesh handle whose font resolves. -/
theorem c3_success_mesh_equals_generator_output_witness :
    wFont.fonts.get? obj0.text_mesh.style.font = some { ttf_font := 5 } ∧
    (∀ mh, obj0.mesh = some mh → ∃ m0, wFont.meshes.get? mh = some m0) ∧
    ∃ r mh m, text_mesh_step gen0 wFont obj0 = some r ∧
      r.2.1.mesh = some mh ∧
      r.1.meshes.get? mh = some m ∧
      m.attr_position = some (gen0 obj0.text_mesh 5 wFont.cache).1.vertices ∧
      m.attr_normal = some (gen0 obj0.text_mesh 5 wFont.cache).1.normals ∧
      m.attr_uv0 = some (gen0 obj0.text_mesh 5 wFont.cache).1.uvs ∧
      m.indices = some (Indices.U32 (gen0 obj0.text_mesh 5 wFont.cache).1.indices) :=
  ⟨rfl, fun mh hmh => by simp [obj0] at hmh,
    c3_success_mesh_equals_generator_output gen0 wFont obj0 { ttf_font := 5 } rfl
      (fun mh hmh => by simp [obj0] at hmh)⟩

/-- C8 (confirmed): for an object with no mesh handle whose font resolves,
the Synchronizer allocates a fresh triangle-list mesh with the generated
buffers applied and stores it under a fresh handle attached to the object;
its material is the existing material handle when present, otherwise a
freshly allocated material with base color taken from the style, unlit
set, and alpha-blend mode; the object's transform, global transform and
visibility are copied verbatim. -/
theorem c8_create_attaches_bundle (gen : GenFn) (w : World) (obj : TextObject)
    (font : TextMeshFont)
    (hfont : w.fonts.get? obj.text_mesh.style.font = some font)
    (hmesh : obj.mesh = none) :
    ∃ r, text_mesh_step gen w obj = some r ∧
      r.2.1.mesh = some w.meshes.next_id ∧
      r.1.meshes.get? w.meshes.next_id =
        some (apply_mesh (gen obj.text_mesh font.ttf_font w.cache).1
          (Mesh.new PrimitiveTopology.TriangleList)) ∧
      (∀ mh, obj.material = some mh →
        r.2.1.material = some mh ∧ r.1.materials = w.materials) ∧
      (obj.material = none →
        r.2.1.material = some w.materials.next_id ∧
        r.1.materials.get? w.materials.next_id =
          some { base_color := obj.text_mesh.style.color, unlit := true,
                 alpha_mode := AlphaMode.Blend }) ∧
      r.2.1.transform = obj.transform ∧
      r.2.1.global_transform = obj.global_transform ∧
      r.2.1.visibility = obj.visibility := by
  cases hmat : obj.material with
  | some mhandle =>
      refine ⟨({ w with
          materials := w.materials
          meshes := (w.meshes.add
            (apply_mesh (gen obj.text_mesh font.ttf_font w.cache).1
              (Mesh.new PrimitiveTopology.TriangleList))).1
          fonts := w.fonts.set obj.text_mesh.style.font
            { font with ttf_font := (gen obj.text_mesh font.ttf_font w.cache).2.1 }
          cache := (gen obj.text_mesh font.ttf_font w.cache).2.2 },
        { obj with
            mesh := some (w.meshes.add
              (apply_mesh (gen obj.text_mesh font.ttf_font w.cache).1
                (Mesh.new PrimitiveTopology.TriangleList))).2
            material := some mhandle },
        false),
        ?_, rfl, ?_, ?_, ?_, rfl, rfl, rfl⟩
      · simp [text_mesh_step, hfont, hmesh, hmat]
      · exact Assets.get?_add_self w.meshes _
      · intro mh hmh
        cases hmh
        exact ⟨rfl, rfl⟩
      · intro hnone
        cases hnone
  | none =>
      refine ⟨({ w with
          materials := (w.materials.add
            { base_color := obj.text_mesh.style.color, unlit := true,
              alpha_mode := AlphaMode.Blend }).1
          meshes := (w.meshes.add
            (apply_mesh (gen obj.text_mesh font.ttf_font w.cache).1
              (Mesh.new PrimitiveTopology.TriangleList))).1
          fonts := w.fonts.set obj.text_mesh.style.font
            { font with ttf_font := (gen obj.text_mesh font.ttf_font w.cache).2.1 }
          cache := (gen obj.text_mesh font.ttf_font w.cache).2.2 },
        { obj with
            mesh := some (w.meshes.add
              (apply_mesh (gen obj.text_mesh font.ttf_font w.cache).1
                (Mesh.new PrimitiveTopology.TriangleList))).2
            material := some (w.materials.add
              { base_color := obj.text_mesh.style.color, unlit := true,
                alpha_mode := AlphaMode.Blend }).2 },
        false),
        ?_, rfl, ?_, ?_, ?_, rfl, rfl, rfl⟩
      · simp [text_mesh_step, hfont, hmesh, hmat]
      · exact Assets.get?_add_self w.meshes _
      · intro mh hmh
        cases hmh
      · intro hnone
        exact ⟨rfl, Assets.get?_add_self w.materials _⟩

/-- Witness for `c8_create_attaches_bundle` at a concrete object with no
mesh and no material. -/
theorem c8_create_attaches_bundle_witness :
    wFont.fonts.get? obj0.text_mesh.style.font = some { ttf_font := 5 } ∧
    obj0.mesh = none ∧
    ∃ r, text_mesh_step gen0 wFont obj0 = some r ∧
      r.2.1.mesh = some wFont.meshes.next_id ∧
      r.1.meshes.get? wFont.meshes.next_id =
        some (apply_mesh (gen0 obj0.text_mesh 5 wFont.cache).1
          (Mesh.new PrimitiveTopology.TriangleList)) ∧
      (∀ mh, obj0.material = some mh →
        r.2.1.material = some mh ∧ r.1.materials = wFont.materials) ∧
      (obj0.material = none →
        r.2.1.material = some wFont.materials.next_id ∧
        r.1.materials.get? wFont.materials.next_id =
          some { base_color := obj0.text_mesh.style.color, unlit := true,
                 alpha_mode := AlphaMode.Blend }) ∧
      r.2.1.transform = obj0.transform ∧
      r.2.1.global_transform = obj0.global_transform ∧
      r.2.1.visibility = obj0.visibility :=
  ⟨rfl, rfl,
    c8_create_attaches_bundle gen0 wFont obj0 { ttf_font := 5 } rfl rfl⟩

/-- C6 (confirmed): one font lifecycle event processed by the Font-Ready
Watcher: a created event sets `font_loaded = some true` exactly on the
objects whose style references the event's font handle and leaves every
other object unchanged; a removed event sets `font_loaded = some false` on
exactly those objects; a modified event (the only other event kind)
changes nothing. -/
theorem c6_font_events_target_matching_objects (objs : List TextObject)
    (h : HandleId) (i : Nat) (o : TextObject) (ho : objs[i]? = some o) :
    (h = o.text_mesh.style.font →
      (font_loaded_event objs (AssetEvent.Created h))[i]? =
        some { o with state := { o.state with font_loaded := some true } } ∧
      (font_loaded_event objs (AssetEvent.Removed h))[i]? =
        some { o with state := { o.state with font_loaded := some false } }) ∧
    (¬ h = o.text_mesh.style.font →
      (font_loaded_event objs (AssetEvent.Created h))[i]? = some o ∧
      (font_loaded_event objs (AssetEvent.Removed h))[i]? = some o) ∧
    font_loaded_event objs (AssetEvent.Modified h) = objs := by
  refine ⟨fun hc => ⟨?_, ?_⟩, fun hc => ⟨?_, ?_⟩, rfl⟩ <;>
    simp [font_loaded_event, List.getElem?_map, ho, hc]

/-- Witness for `c6_font_events_target_matching_objects` at a concrete
two-object list (fonts 0 and 1) and a created/removed event for font 0. -/
theorem c6_font_events_target_matching_objects_witness :
    ([obj0, { obj0 with text_mesh := { text := "B", style := { font := 1, color := 9 } } }][0]? =
      some obj0) ∧
    ((0 = obj0.text_mesh.style.font →
      (font_loaded_event
        [obj0, { obj0 with text_mesh := { text := "B", style := { font := 1, color := 9 } } }]
        (AssetEvent.Created 0))[0]? =
        some { obj0 with state := { obj0.state with font_loaded := some true } } ∧
      (font_loaded_event
        [obj0, { obj0 with text_mesh := { text := "B", style := { font := 1, color := 9 } } }]
        (AssetEvent.Removed 0))[0]? =
        some { obj0 with state := { obj0.state with font_loaded := some false } }) ∧
    (¬ 0 = obj0.text_mesh.style.font →
      (font_loaded_event
        [obj0, { obj0 with text_mesh := { text := "B", style := { font := 1, color := 9 } } }]
        (AssetEvent.Created 0))[0]? = some obj0 ∧
      (font_loaded_event
        [obj0, { obj0 with text_mesh := { text := "B", style := { font := 1, color := 9 } } }]
        (AssetEvent.Removed 0))[0]? = some obj0) ∧
    font_loaded_event
      [obj0, { obj0 with text_mesh := { text := "B", style := { font := 1, color := 9 } } }]
      (AssetEvent.Modified 0) =
      [obj0, { obj0 with text_mesh := { text := "B", style := { font := 1, color := 9 } } }]) :=
  ⟨rfl, c6_font_events_target_matching_objects
    [obj0, { obj0 with text_mesh := { text := "B", style := { font := 1, color := 9 } } }]
    0 0 obj0 rfl⟩

/-- Projection onto every per-object field except `state.font_loaded`:
the renderable-facing data (mesh and material handles, transform, global
transform, visibility), the text declaration, and the warning fields. -/
def TextObject.render_fields (o : TextObject) :
    Transform × GlobalTransform × Option HandleId × TextMesh × Option HandleId ×
      Visibility × Nat × Bool :=
  (o.transform, o.global_transform, o.material, o.text_mesh, o.mesh, o.visibility,
    o.state.warning_trigger_count, o.state.warning_shown)

/-- One watcher event never changes anything but `state.font_loaded`. -/
theorem font_loaded_event_render_fields (objs : List TextObject) (e : AssetEvent)
    (i : Nat) :
    ((font_loaded_event objs e)[i]?).map TextObject.render_fields =
      (objs[i]?).map TextObject.render_fields := by
  cases e with
  | Created h =>
      simp only [font_loaded_event, List.getElem?_map]
      cases ho : objs[i]? with
      | none => rfl
      | some o =>
          by_cases hc : h = o.text_mesh.style.font <;>
            simp [hc, TextObject.render_fields]
  | Removed h =>
      simp only [font_loaded_event, List.getElem?_map]
      cases ho : objs[i]? with
      | none => rfl
      | some o =>
          by_cases hc : h = o.text_mesh.style.font <;>
            simp [hc, TextObject.render_fields]
  | Modified h => rfl

/-- C9 (confirmed): over any sequence of font lifecycle events, the
Font-Ready Watcher changes nothing except the per-object
`state.font_loaded` field: every renderable-facing field (mesh handle,
material handle, transform, global transform, visibility), the text
declaration and the warning fields are untouched.  (The watcher takes no
resources at all: by its signature it cannot create geometry or touch the
mesh or material stores.) -/
theorem c9_watcher_only_writes_font_loaded (events : List AssetEvent)
    (objs : List TextObject) (i : Nat) :
    ((font_loaded objs events)[i]?).map TextObject.render_fields =
      (objs[i]?).map TextObject.render_fields := by
  induction events generalizing objs with
  | nil => rfl
  | cons e es ih =>
      have h1 : font_loaded objs (e :: es) =
          font_loaded (font_loaded_event objs e) es := rfl
      rw [h1]
      exact (ih (font_loaded_event objs e)).trans
        (font_loaded_event_render_fields objs e i)

/-- The per-object Synchronizer step completes (does not hit the
`unwrap()` panic) whenever the object's mesh handle, if present, is backed
by the mesh store. -/
theorem text_mesh_step_isSome (gen : GenFn) (w : World) (obj : TextObject)
    (h : ∀ mh, obj.mesh = some mh → (w.meshes.get? mh).isSome = true) :
    (text_mesh_step gen w obj).isSome = true := by
  cases hf : w.fonts.get? obj.text_mesh.style.font with
  | none => simp [text_mesh_step, hf]
  | some font =>
      cases hm : obj.mesh with
      | some mh =>
          have hks := h mh hm
          cases hg : w.meshes.get? mh with
          | none => rw [hg] at hks; simp at hks
          | some m => simp [text_mesh_step, hf, hm, hg]
      | none =>
          cases hmat : obj.material with
          | some mh2 => simp [text_mesh_step, hf, hm, hmat]
          | none => simp [text_mesh_step, hf, hm, hmat]

/-- The Synchronizer step never removes a mesh from the store: every
handle backed before the step is backed after it. -/
theorem text_mesh_step_meshes_mono (gen : GenFn) (w : World) (obj : TextObject)
    (r : World × TextObject × Bool) (hstep : text_mesh_step gen w obj = some r)
    (k : HandleId) (hk : (w.meshes.get? k).isSome = true) :
    (r.1.meshes.get? k).isSome = true := by
  cases hf : w.fonts.get? obj.text_mesh.style.font with
  | none =>
      simp only [text_mesh_step, hf] at hstep
      have h2 := (Option.some.inj hstep).symm
      subst h2
      exact hk
  | some font =>
      cases hm : obj.mesh with
      | some mh =>
          cases hg : w.meshes.get? mh with
          | none => simp [text_mesh_step, hf, hm, hg] at hstep
          | some m =>
              simp only [text_mesh_step, hf, hm, hg] at hstep
              have h2 := (Option.some.inj hstep).symm
              subst h2
              exact Assets.get?_set_isSome w.meshes mh k _ hk
      | none =>
          cases hmat : obj.material with
          | some mh2 =>
              simp only [text_mesh_step, hf, hm, hmat] at hstep
              have h2 := (Option.some.inj hstep).symm
              subst h2
              exact Assets.get?_add_isSome w.meshes k _ hk
          | none =>
              simp only [text_mesh_step, hf, hm, hmat] at hstep
              have h2 := (Option.some.inj hstep).symm
              subst h2
              exact Assets.get?_add_isSome w.meshes k _ hk

/-- C7 (counterexample): the claim "both passes complete without
panicking for every input state" fails on the code: with a resolved font
and an object carrying a stale mesh handle (handle 99, absent from the
mesh store), the Synchronizer pass hits the `unwrap()` on source line 65,
modelled here by `none`. -/
theorem c7_no_panic_false :
    text_mesh gen0 wFont [(true, { obj0 with mesh := some 99 })] = none := rfl

/-- C7 (amended): the Font-Ready Watcher is a total function by
construction; the Synchronizer pass completes without panicking provided
every eligible object's mesh handle, when present, resolves in the mesh
store (the only panic point is the `unwrap()` of a stale mesh handle on
source line 65). -/
theorem c7_amended_no_panic (gen : GenFn) (w : World) (objs : List (Bool × TextObject))
    (hvalid : ∀ p ∈ objs, ∀ mh, p.2.mesh = some mh →
      (w.meshes.get? mh).isSome = true) :
    (text_mesh gen w objs).isSome = true := by
  induction objs generalizing w with
  | nil => rfl
  | cons p rest ih =>
      obtain ⟨changed, obj⟩ := p
      cases changed with
      | false =>
          have ih2 := ih w (fun q hq => hvalid q (List.mem_cons_of_mem _ hq))
          simp only [text_mesh, Bool.false_eq_true, if_false]
          rw [Option.isSome_map']
          exact ih2
      | true =>
          have hstep := text_mesh_step_isSome gen w obj
            (fun mh hmh => hvalid (true, obj) (List.mem_cons_self _ _) mh hmh)
          obtain ⟨r, hr⟩ := Option.isSome_iff_exists.mp hstep
          have hrest := ih r.1 (fun q hq mh hmh =>
            text_mesh_step_meshes_mono gen w obj r hr mh
              (hvalid q (List.mem_cons_of_mem _ hq) mh hmh))
          simp only [text_mesh, if_true, hr, Option.some_bind]
          rw [Option.isSome_map']
          exact hrest

/-- Witness for `c7_amended_no_panic` at a concrete pass over one
eligible object whose mesh handle is backed by the store. -/
theorem c7_amended_no_panic_witness :
    (∀ p ∈ [(true, objM)], ∀ mh, p.2.mesh = some mh →
      (wFull.meshes.get? mh).isSome = true) ∧
    (text_mesh gen0 wFull [(true, objM)]).isSome = true :=
  ⟨fun p hp mh hmh => by
      simp at hp
      subst hp
      simp [objM, obj0] at hmh
      subst hmh
      rfl,
    c7_amended_no_panic gen0 wFull [(true, objM)]
      (fun p hp mh hmh => by
        simp at hp
        subst hp
        simp [objM, obj0] at hmh
        subst hmh
        rfl)⟩

/-- Readiness states reachable from the default state through the two
core components: the unresolved-skip branch of the Synchronizer
(`skip_state`; the resolved branch of `text_mesh_step` returns the
object's state untouched), and the
`font_loaded` writes of the Font-Ready Watcher. -/
inductive Reachable : TextMeshState → Prop
  | init : Reachable TextMeshState.default
  | skip (s : TextMeshState) : Reachable s → Reachable (skip_state s).1
  | font_event (s : TextMeshState) (b : Bool) : Reachable s →
      Reachable { s with font_loaded := some b }

/-- C10 (confirmed): in every readiness state reachable from the default
state via the two core components, `warning_trigger_count` never exceeds
6, and `warning_shown` is true exactly when the counter equals 6 (the
counter stops incrementing once the warning has been shown). -/
theorem c10_throttle_invariant (s : TextMeshState) (h : Reachable s) :
    s.warning_trigger_count ≤ 6 ∧
    (s.warning_shown = true ↔ s.warning_trigger_count = 6) := by
  induction h with
  | init => exact ⟨by decide, by decide⟩
  | skip s hs ih =>
      obtain ⟨hle, hiff⟩ := ih
      by_cases hsh : s.warning_shown = true
      · have heq : skip_state s = (s, false) := by simp [skip_state, hsh]
        rw [heq]
        exact ⟨hle, hiff⟩
      · have hfalse : s.warning_shown = false := by
          cases hb : s.warning_shown
          · rfl
          · exact absurd hb hsh
        have hne : s.warning_trigger_count ≠ 6 := fun hc => hsh (hiff.mpr hc)
        by_cases h5 : s.warning_trigger_count = 5
        · have heq : skip_state s =
              ({ s with warning_trigger_count := 6, warning_shown := true }, true) := by
            simp [skip_state, hfalse, h5]
          rw [heq]
          exact ⟨by simp, by simp⟩
        · have hlt : ¬ s.warning_trigger_count + 1 > 5 := by omega
          have heq : skip_state s =
              ({ s with warning_trigger_count := s.warning_trigger_count + 1 }, false) := by
            simp [skip_state, hfalse, hlt]
          rw [heq]
          constructor
          · simp; omega
          · simp [hfalse]; omega
  | font_event s b hs ih => simpa using ih

/-- Witness for `c10_throttle_invariant` at the default initial state. -/
theorem c10_throttle_invariant_witness :
    Reachable TextMeshState.default ∧
    (TextMeshState.default.warning_trigger_count ≤ 6 ∧
      (TextMeshState.default.warning_shown = true ↔
        TextMeshState.default.warning_trigger_count = 6)) :=
  ⟨Reachable.init, c10_throttle_invariant TextMeshState.default Reachable.init⟩

end BevyTextMesh
